import Mathlib

/-!
Shallow embedding of the adaptive RPC endpoint health and error-recovery
subsystem of the `ship-celo-wallet` repository.

The embedding covers:
* the data model of `src/types/network.ts` (`RPCEndpoint`, metrics, statuses);
* the error-recovery utilities (`classifyError`, `retryWithBackoff`,
  `generateUserMessage`, `switchRpcEndpoint`, `requestUserConsent`,
  `recoverFromError`);
* the health-monitoring utilities of `src/utils/networkMonitoring.ts`
  (`checkRPCEndpointHealth`, `checkMultipleEndpoints`,
  `calculateAverageResponseTime`, `determineCongestionLevel`);
* the cache-refresh logic of the `useNetworkHealth` hook (`fetchHealth`).

JavaScript numbers are embedded as `Int` (all the values involved are integral
millisecond counts, wei amounts or percentages) except where the source
divides, in which case `ℚ` is used so that arithmetic is exact.  Ambient
effects (the wall clock, the RPC transport) are passed in explicitly as data:
a probe's outcome is an `Except` value, timestamps are explicit arguments.
-/

namespace ShipCelo

/-- JavaScript `String.prototype.toLowerCase` (ASCII text). -/
def lowerStr (s : String) : String := ⟨s.data.map Char.toLower⟩

/-- JavaScript `String.prototype.includes`: substring containment. -/
def jsIncludes (s pat : String) : Bool := decide (pat.data <:+: s.data)

/-! ## Data model (`src/types/network.ts`) -/

/-- `NetworkStatus` from `src/types/network.ts`. -/
inductive NetworkStatus
  | healthy
  | degraded
  | down
  deriving DecidableEq, Repr

/-- `NetworkCongestionLevel` from `src/types/network.ts`. -/
inductive NetworkCongestionLevel
  | low
  | medium
  | high
  deriving DecidableEq, Repr

/-- `RPCHealthMetrics` from `src/types/network.ts`.
`lastChecked` is a `Date`, embedded as an integer timestamp. -/
structure RPCHealthMetrics where
  responseTime : Int
  successRate : Int
  lastChecked : Int
  errorCount : Int
  deriving DecidableEq, Repr

/-- `RPCEndpoint` from `src/types/network.ts`. -/
structure RPCEndpoint where
  url : String
  chainId : Int
  status : NetworkStatus
  metrics : RPCHealthMetrics
  isActive : Bool
  deriving DecidableEq, Repr

/-! ## Error-recovery data types (`errorRecovery` module) -/

/-- A JavaScript `Error`: only its `message` is inspected by this subsystem. -/
structure JsError where
  message : String
  deriving DecidableEq, Repr

/-- `ErrorCategory` from the error-recovery module. -/
inductive ErrorCategory
  | network
  | wallet
  | transaction
  | browser
  deriving DecidableEq, Repr

/-- The `type` field of `RecoveryAction`. -/
inductive ActionType
  | retry
  | switch_rpc
  | install_wallet
  | update_browser
  | manual_action
  deriving DecidableEq, Repr

/-- `RecoveryAction` from the error-recovery module. -/
structure RecoveryAction where
  type : ActionType
  description : String
  automatic : Bool
  requiresConsent : Bool
  actionUrl : Option String := none
  deriving DecidableEq, Repr

/-- The `severity` field of `UserMessage`. -/
inductive Severity
  | info
  | warning
  | error
  deriving DecidableEq, Repr

/-- `UserMessage` from the error-recovery module. -/
structure UserMessage where
  title : String
  message : String
  severity : Severity
  actions : List RecoveryAction
  deriving DecidableEq, Repr

/-- `RetryConfig` from the error-recovery module (all fields in ms / counts). -/
structure RetryConfig where
  maxAttempts : Nat
  initialDelay : Nat
  backoffMultiplier : Nat
  maxDelay : Nat
  deriving DecidableEq, Repr

/-- `defaultRetryConfig` from the error-recovery module. -/
def defaultRetryConfig : RetryConfig :=
  { maxAttempts := 3, initialDelay := 1000, backoffMultiplier := 2, maxDelay := 30000 }

/-- `RecoveryAttempt` from the error-recovery module (the `timestamp : Date`
field is ambient wall-clock data and is not modelled). -/
structure RecoveryAttempt where
  error : JsError
  category : ErrorCategory
  action : RecoveryAction
  success : Bool
  details : Option String := none
  deriving DecidableEq, Repr

/-- `ConsentRequest` from the error-recovery module. -/
structure ConsentRequest where
  action : RecoveryAction
  reason : String
  timeout : Nat
  deriving DecidableEq, Repr

/-! ## Error classifier (`classifyError`) -/

/-- The disjunction of `message.includes(...)` keyword tests that the body of
`classifyError` performs for one category (the message is already
lower-cased by the caller). -/
def msgMatches (message : String) : ErrorCategory → Bool
  | .network =>
      jsIncludes message "network" || jsIncludes message "rpc" ||
      jsIncludes message "connection" || jsIncludes message "timeout"
  | .wallet =>
      jsIncludes message "wallet" || jsIncludes message "metamask" ||
      jsIncludes message "connector" || jsIncludes message "account"
  | .transaction =>
      jsIncludes message "transaction" || jsIncludes message "tx" ||
      jsIncludes message "gas" || jsIncludes message "nonce"
  | .browser =>
      jsIncludes message "browser" || jsIncludes message "compatibility" ||
      jsIncludes message "unsupported"

/-- `classifyError(error, context?)`: four cascaded `if`s, each testing the
lower-cased message's keywords for one category together with
`ctx.includes(<category name>)`; defaults to `network`. -/
def classifyError (error : JsError) (context : Option String) : ErrorCategory :=
  let message := lowerStr error.message
  let ctx := (context.map lowerStr).getD ""
  if msgMatches message .network || jsIncludes ctx "network" then .network
  else if msgMatches message .wallet || jsIncludes ctx "wallet" then .wallet
  else if msgMatches message .transaction || jsIncludes ctx "transaction" then .transaction
  else if msgMatches message .browser || jsIncludes ctx "browser" then .browser
  else .network

/-! ## Retry engine (`retryWithBackoff`) -/

/-- The delay slept after a failed non-final attempt number `attempt`:
`Math.min(initialDelay * backoffMultiplier^(attempt-1), maxDelay)`. -/
def backoffDelay (cfg : RetryConfig) (attempt : Nat) : Nat :=
  min (cfg.initialDelay * cfg.backoffMultiplier ^ (attempt - 1)) cfg.maxDelay

/-- The `for` loop of `retryWithBackoff`, beginning at attempt number
`attempt` with `remaining` further attempts allowed after the current one
(`remaining = maxAttempts - attempt` on entry).  The operation is embedded as
a function from the attempt number to that attempt's outcome.  Returns the
final outcome, the number of times the operation was invoked, and the total
delay slept between attempts. -/
def retryFrom (op : Nat → Except JsError α) (cfg : RetryConfig) :
    Nat → Nat → Except JsError α × Nat × Nat
  | attempt, 0 =>
    match op attempt with
    | .ok v => (.ok v, 1, 0)
    | .error e => (.error e, 1, 0)
  | attempt, r + 1 =>
    match op attempt with
    | .ok v => (.ok v, 1, 0)
    | .error _ =>
      let rest := retryFrom op cfg (attempt + 1) r
      (rest.1, rest.2.1 + 1, rest.2.2 + backoffDelay cfg attempt)

/-- `retryWithBackoff(operation, config)` with the already-merged
configuration `cfg` (the source spreads a partial config over
`defaultRetryConfig`); meaningful for `cfg.maxAttempts ≥ 1`. -/
def retryWithBackoff (op : Nat → Except JsError α) (cfg : RetryConfig) :
    Except JsError α × Nat × Nat :=
  retryFrom op cfg 1 (cfg.maxAttempts - 1)

/-! ## Recovery catalog (`generateUserMessage`) -/

/-- `generateUserMessage(error, category)`: static catalog of titles, bodies
and ordered action lists per category (each branch overrides the base
message built from `error.message`). -/
def generateUserMessage (error : JsError) (category : ErrorCategory) : UserMessage :=
  match category with
  | .network =>
    { title := "Network Connection Issue"
      message := "Unable to connect to the Celo network. This might be due to network congestion or RPC endpoint issues."
      severity := .error
      actions :=
        [ { type := .retry, description := "Retry the operation",
            automatic := true, requiresConsent := false },
          { type := .switch_rpc, description := "Try a different RPC endpoint",
            automatic := true, requiresConsent := false } ] }
  | .wallet =>
    { title := "Wallet Connection Issue"
      message := "There was a problem with your wallet connection."
      severity := .error
      actions :=
        [ { type := .retry, description := "Retry wallet connection",
            automatic := true, requiresConsent := false },
          { type := .install_wallet, description := "Install or connect a wallet",
            automatic := false, requiresConsent := false,
            actionUrl := some "https://metamask.io/download/" } ] }
  | .transaction =>
    { title := "Transaction Error"
      message := "Your transaction could not be processed."
      severity := .error
      actions :=
        [ { type := .retry, description := "Retry the transaction",
            automatic := false, requiresConsent := true },
          { type := .manual_action, description := "Check transaction details and try again",
            automatic := false, requiresConsent := false } ] }
  | .browser =>
    { title := "Browser Compatibility Issue"
      message := "Your browser may not fully support all features."
      severity := .error
      actions :=
        [ { type := .update_browser, description := "Update your browser or try a different one",
            automatic := false, requiresConsent := false,
            actionUrl := some "https://www.google.com/chrome/" } ] }

/-! ## Endpoint selector (`switchRpcEndpoint`) -/

/-- The selection score of `switchRpcEndpoint`:
`metrics.responseTime + (100 - metrics.successRate)`; lower is better. -/
def epScore (e : RPCEndpoint) : Int :=
  e.metrics.responseTime + (100 - e.metrics.successRate)

/-- The candidate filter of `switchRpcEndpoint`: healthy, active, and with a
url different from the current endpoint's. -/
def isCandidate (current ep : RPCEndpoint) : Bool :=
  ep.status == .healthy && ep.isActive && ep.url != current.url

/-- `switchRpcEndpoint(currentEndpoint, availableEndpoints)`: filter to
candidates, stably sort by score ascending, return element 0 (or `null` when
no candidate remains).  The fold below computes exactly the head of that
stable sort: the earliest candidate attaining the minimal score. -/
def switchRpcEndpoint (currentEndpoint : RPCEndpoint)
    (availableEndpoints : List RPCEndpoint) : Option RPCEndpoint :=
  let healthyEndpoints := availableEndpoints.filter (isCandidate currentEndpoint)
  match healthyEndpoints with
  | [] => none
  | e :: rest =>
    some (rest.foldl (fun best ep => if epScore ep < epScore best then ep else best) e)

/-! ## Consent gate (`requestUserConsent`) -/

/-- `requestUserConsent(request)`: resolves `true` immediately (zero delay)
when the action does not require consent, and otherwise auto-approves after
`Math.min(request.timeout, 5000)` ms.  Returns the decision together with
the delay (in ms) before resolution. -/
def requestUserConsent (request : ConsentRequest) : Bool × Nat :=
  if !request.action.requiresConsent then (true, 0)
  else (true, min request.timeout 5000)

/-! ## Recovery orchestrator (`recoverFromError`) -/

/-- The result record of `recoverFromError`. -/
structure RecoveryResult where
  recovered : Bool
  message : UserMessage
  attempts : List RecoveryAttempt
  deriving DecidableEq, Repr

/-- The string name of a category, as interpolated into consent reasons and
compared by the classifier's context test. -/
def categoryName : ErrorCategory → String
  | .network => "network"
  | .wallet => "wallet"
  | .transaction => "transaction"
  | .browser => "browser"

/-- The `switch` on `action.type` inside `recoverFromError`, producing the
`RecoveryAttempt` record for one automatic action (initially
`success := false`, details unset). -/
def performAction (error : JsError) (category : ErrorCategory)
    (action : RecoveryAction) (availableEndpoints : Option (List RPCEndpoint)) :
    RecoveryAttempt :=
  match action.type with
  | .retry =>
      { error, category, action, success := true }
  | .switch_rpc =>
      match availableEndpoints with
      | some (e0 :: eps) =>
          match switchRpcEndpoint e0 (e0 :: eps) with
          | some newEndpoint =>
              { error, category, action, success := true,
                details := some ("Switched to " ++ newEndpoint.url) }
          | none =>
              { error, category, action, success := false,
                details := some "No alternative endpoint available" }
      | some [] => { error, category, action, success := false }
      | none => { error, category, action, success := false }
  | .install_wallet | .update_browser | .manual_action =>
      { error, category, action, success := true,
        details := some "User guidance provided" }

/-- The `for`-loop body of `recoverFromError`: walk the message's actions in
order; a non-automatic action is skipped; an automatic action passes the
consent gate (which, in this implementation, always approves), is executed,
appended to the attempt log, and short-circuits the loop on success. -/
def recoverLoop (error : JsError) (category : ErrorCategory)
    (message : UserMessage) (availableEndpoints : Option (List RPCEndpoint)) :
    List RecoveryAction → List RecoveryAttempt → RecoveryResult
  | [], attempts => { recovered := false, message, attempts }
  | action :: rest, attempts =>
    if action.automatic then
      let consent := (requestUserConsent
        { action
          reason := "Attempting to recover from " ++ categoryName category ++ " error"
          timeout := 3000 }).1
      if !consent then
        recoverLoop error category message availableEndpoints rest attempts
      else
        let attempt := performAction error category action availableEndpoints
        let attempts := attempts ++ [attempt]
        if attempt.success then { recovered := true, message, attempts }
        else recoverLoop error category message availableEndpoints rest attempts
    else
      recoverLoop error category message availableEndpoints rest attempts

/-- `recoverFromError(error, context?, availableEndpoints?)`: classify, build
the user message, then run the action loop over the message's actions. -/
def recoverFromError (error : JsError) (context : Option String)
    (availableEndpoints : Option (List RPCEndpoint)) : RecoveryResult :=
  let category := classifyError error context
  let message := generateUserMessage error category
  recoverLoop error category message availableEndpoints message.actions []

/-! ## Health monitor (`src/utils/networkMonitoring.ts`) -/

/-- The chain ids present in `chainMap` (celo, alfajores, baklava);
`createClient` throws for any other chain id. -/
def supportedChain (chainId : Int) : Bool :=
  chainId == 42220 || chainId == 44787 || chainId == 62320

/-- Ambient data consumed by one `checkRPCEndpointHealth` call: whether
`client.getBlockNumber()` resolved, the measured elapsed time
`Date.now() - startTime`, and the `new Date()` wall-clock value. -/
structure ProbeEnv where
  rpcOk : Bool
  elapsed : Int
  time : Int
  deriving DecidableEq, Repr

/-- `checkRPCEndpointHealth(endpoint)`: the `try` block succeeds iff the
chain id is supported (otherwise `createClient` throws into the `catch`)
and the block-number call resolves.  Success overwrites the metrics with a
healthy last-probe snapshot; failure records a failed probe, incrementing
`errorCount`.  The function itself never throws. -/
def checkRPCEndpointHealth (endpoint : RPCEndpoint) (env : ProbeEnv) : RPCEndpoint :=
  if supportedChain endpoint.chainId && env.rpcOk then
    { endpoint with
      status := .healthy
      isActive := true
      metrics :=
        { responseTime := env.elapsed, successRate := 100,
          lastChecked := env.time, errorCount := 0 } }
  else
    { endpoint with
      status := .down
      isActive := false
      metrics :=
        { responseTime := env.elapsed, successRate := 0,
          lastChecked := env.time,
          errorCount := endpoint.metrics.errorCount + 1 } }

/-- `checkMultipleEndpoints(endpoints)`: probes every endpoint (concurrently
in the source; each completion touches only its own record, so the batch is
the pointwise map) and never rejects. -/
def checkMultipleEndpoints (endpoints : List RPCEndpoint)
    (env : RPCEndpoint → ProbeEnv) : List RPCEndpoint :=
  endpoints.map (fun e => checkRPCEndpointHealth e (env e))

/-- `calculateAverageResponseTime(metrics)`: 0 for an empty list, otherwise
the arithmetic mean of the response times. -/
def calculateAverageResponseTime (metrics : List RPCHealthMetrics) : ℚ :=
  if metrics.length = 0 then 0
  else (((metrics.map (fun m => m.responseTime)).sum : Int) : ℚ) / (metrics.length : ℚ)

/-- `determineCongestionLevel(gasPrice, averageResponseTime)`: converts wei
to Gwei by dividing by `1e9` and applies strict `>` thresholds, `high`
taking precedence over `medium` over `low`. -/
def determineCongestionLevel (gasPrice : Int) (averageResponseTime : ℚ) :
    NetworkCongestionLevel :=
  let gasPriceGwei : ℚ := (gasPrice : ℚ) / 1000000000
  if gasPriceGwei > 100 ∨ averageResponseTime > 5000 then .high
  else if gasPriceGwei > 50 ∨ averageResponseTime > 2000 then .medium
  else .low

/-! ## Health cache refresh (`useNetworkHealth.fetchHealth`) -/

/-- A block as consumed by the block-timing computation (its `number` and
`timestamp` fields). -/
structure Block where
  number : Int
  timestamp : Int
  deriving DecidableEq, Repr

/-- The `gasPriceTrend` union type (`increasing | decreasing | stable`). -/
inductive GasPriceTrend
  | increasing
  | decreasing
  | stable
  deriving DecidableEq, Repr

/-- `NetworkHealthMetrics` from `src/types/network.ts` (the `timestamp :
Date` field embedded as an integer). -/
structure NetworkHealthMetrics where
  rpcResponseTime : ℚ
  transactionSuccessRate : Int
  blockProductionTime : ℚ
  gasPriceTrend : GasPriceTrend
  connectedPeerCount : Int
  lastBlockNumber : Int
  timestamp : Int
  deriving DecidableEq, Repr

/-- `NetworkHealthData` from `src/types/network.ts`. -/
structure NetworkHealthData where
  chainId : Int
  status : NetworkStatus
  congestionLevel : NetworkCongestionLevel
  metrics : NetworkHealthMetrics
  rpcEndpoints : List RPCEndpoint
  lastUpdated : Int
  deriving DecidableEq, Repr

/-- How far one iteration of the gas/block fallback loop of `fetchHealth`
gets on one endpoint before a call throws: `getGasPrice`, then
`estimateTransactionSuccessRate`, then `fetchBlockData` (all-or-nothing per
call; assignments made before the throwing call persist). -/
inductive GasFetchOutcome
  | failGas
  | failRate (gasPrice : Int)
  | failBlocks (gasPrice : Int) (txCount : Nat)
  | ok (gasPrice : Int) (txCount : Nat) (blocks : List Block)
  deriving DecidableEq, Repr

/-- The consecutive block-timestamp differences
`blocks.slice(1).map((block, i) => blocks[i].timestamp - block.timestamp)`
(blocks are fetched latest-first). -/
def timeDiffs (blocks : List Block) : List Int :=
  (blocks.zip blocks.tail).map (fun p => p.1.timestamp - p.2.timestamp)

/-- The average block production time computed by `fetchHealth` when more
than one block was fetched: `sum(timeDiffs) / timeDiffs.length / 1000`. -/
def blockProdTime (blocks : List Block) : ℚ :=
  (((timeDiffs blocks).sum : Int) : ℚ) / ((timeDiffs blocks).length : ℚ) / 1000

/-- The fallback loop of `fetchHealth` over the active endpoints, threading
the mutable `gasPrice / transactionSuccessRate / blockProductionTime /
lastBlockNumber` variables (initially `(0, 0, 0, 0)`). The first endpoint
whose three calls all succeed supplies the metrics and `break`s; a thrown
call logs a warning and `continue`s, keeping any assignments already made. -/
def gasMetricsLoop (gasFetch : RPCEndpoint → GasFetchOutcome) :
    List RPCEndpoint → Int × Int × ℚ × Int → Int × Int × ℚ × Int
  | [], acc => acc
  | e :: rest, (gasPrice, txRate, blockTime, lastNum) =>
    match gasFetch e with
    | .failGas =>
        gasMetricsLoop gasFetch rest (gasPrice, txRate, blockTime, lastNum)
    | .failRate g =>
        gasMetricsLoop gasFetch rest (g, txRate, blockTime, lastNum)
    | .failBlocks g t =>
        gasMetricsLoop gasFetch rest (g, min 100 ((t : Int) * 10), blockTime, lastNum)
    | .ok g t blocks =>
        let newBlockTime := if blocks.length > 1 then blockProdTime blocks else blockTime
        let newLastNum := match blocks with
          | [] => 0
          | b :: _ => b.number
        (g, min 100 ((t : Int) * 10), newBlockTime, newLastNum)

/-- The hook state relevant to one `fetchHealth` call: the stored snapshot
and the last successful fetch time. -/
structure HealthState where
  data : Option NetworkHealthData
  lastFetchTime : Int
  deriving DecidableEq, Repr

/-- One call of `useNetworkHealth`'s `fetchHealth` on the chain-filtered
endpoint list: bail out on an empty list or a fresh cached snapshot;
otherwise probe all endpoints, run the gas/block fallback loop over the
active ones, derive congestion and aggregate status, and store the new
snapshot together with the fetch time. -/
def fetchHealth (st : HealthState) (cacheTimeout : Int) (chainId : Int)
    (endpoints : List RPCEndpoint) (probeEnv : RPCEndpoint → ProbeEnv)
    (gasFetch : RPCEndpoint → GasFetchOutcome) (now : Int) : HealthState :=
  if endpoints.length = 0 then st
  else if st.data.isSome ∧ now - st.lastFetchTime < cacheTimeout then st
  else
    let eps := checkMultipleEndpoints endpoints probeEnv
    let avgResponseTime := calculateAverageResponseTime (eps.map (fun e => e.metrics))
    let activeEndpoints := eps.filter (fun e => e.isActive)
    let gm := gasMetricsLoop gasFetch activeEndpoints (0, 0, 0, 0)
    let congestionLevel := determineCongestionLevel gm.1 avgResponseTime
    let healthyCount := (eps.filter (fun e => e.status == NetworkStatus.healthy)).length
    let status : NetworkStatus :=
      if healthyCount = eps.length then .healthy
      else if healthyCount = 0 then .down
      else .degraded
    { data := some
        { chainId := chainId
          status := status
          congestionLevel := congestionLevel
          metrics :=
            { rpcResponseTime := avgResponseTime
              transactionSuccessRate := gm.2.1
              blockProductionTime := gm.2.2.1
              gasPriceTrend := .stable
              connectedPeerCount := 0
              lastBlockNumber := gm.2.2.2
              timestamp := now }
          rpcEndpoints := eps
          lastUpdated := now }
      lastFetchTime := now }

/-! ## Concrete sample data for witnesses -/

/-- The Bool-valued test "some category strictly earlier than `c` in the
classifier's fixed order (network, wallet, transaction, browser) matches the
message keywords". -/
def msgMatchesBefore (message : String) : ErrorCategory → Bool
  | .network => false
  | .wallet => msgMatches message .network
  | .transaction => msgMatches message .network || msgMatches message .wallet
  | .browser =>
      msgMatches message .network || msgMatches message .wallet ||
      msgMatches message .transaction

/-- A healthy sample endpoint (pool head / current endpoint in witnesses). -/
def epForno : RPCEndpoint :=
  { url := "https://forno.celo.org", chainId := 42220, status := .healthy,
    metrics := { responseTime := 100, successRate := 98, lastChecked := 0, errorCount := 0 },
    isActive := true }

/-- A second healthy sample endpoint with a better selection score. -/
def epAnkr : RPCEndpoint :=
  { url := "https://rpc.ankr.com/celo", chainId := 42220, status := .healthy,
    metrics := { responseTime := 50, successRate := 99, lastChecked := 0, errorCount := 0 },
    isActive := true }

/-- A down, inactive sample endpoint. -/
def epDown : RPCEndpoint :=
  { url := "https://down.example", chainId := 42220, status := .down,
    metrics := { responseTime := 900, successRate := 0, lastChecked := 0, errorCount := 3 },
    isActive := false }

/-- A sample endpoint whose chain id is not in `chainMap`. -/
def epBadChain : RPCEndpoint :=
  { url := "https://eth.example", chainId := 1, status := .healthy,
    metrics := { responseTime := 10, successRate := 100, lastChecked := 0, errorCount := 2 },
    isActive := true }

/-- A concrete retried operation: attempts 1 and 2 reject, attempt 3
resolves with 7. -/
def opW : Nat → Except JsError Nat :=
  fun i => if i < 3 then .error ⟨"boom"⟩ else .ok 7

/-- A concrete stored snapshot predating a refresh. -/
def priorHealth : NetworkHealthData :=
  { chainId := 42220, status := .healthy, congestionLevel := .low,
    metrics := { rpcResponseTime := 42, transactionSuccessRate := 90,
                 blockProductionTime := 5, gasPriceTrend := .stable,
                 connectedPeerCount := 0, lastBlockNumber := 999, timestamp := 0 },
    rpcEndpoints := [], lastUpdated := 0 }

/-- Hook state holding `priorHealth`, fetched at time 0. -/
def stPrior : HealthState := { data := some priorHealth, lastFetchTime := 0 }

/-- A probe environment in which every endpoint answers in 100 ms. -/
def probeOkEnv : RPCEndpoint → ProbeEnv :=
  fun _ => { rpcOk := true, elapsed := 100, time := 50 }

/-- A gas/block fetch in which every endpoint fails at the gas-price call. -/
def gasFailAll : RPCEndpoint → GasFetchOutcome := fun _ => .failGas

/-! ## Helper lemmas -/

/-- Wei-to-Gwei threshold: exceeding 100 Gwei after the `1e9` division is
exceeding `100 * 10^9` wei. -/
lemma gasGwei_gt_100 (g : Int) : ((g : ℚ) / 1000000000 > 100) ↔ 100 * 10 ^ 9 < g := by
  rw [gt_iff_lt, lt_div_iff (by norm_num : (0:ℚ) < 1000000000)]
  constructor
  · intro h
    have : (100 * 10 ^ 9 : ℚ) < (g : ℚ) := by norm_num at h ⊢; linarith
    exact_mod_cast this
  · intro h
    have : (100 * 10 ^ 9 : ℚ) < (g : ℚ) := by exact_mod_cast h
    norm_num at this ⊢
    linarith

/-- Wei-to-Gwei threshold: exceeding 50 Gwei after the `1e9` division is
exceeding `50 * 10^9` wei. -/
lemma gasGwei_gt_50 (g : Int) : ((g : ℚ) / 1000000000 > 50) ↔ 50 * 10 ^ 9 < g := by
  rw [gt_iff_lt, lt_div_iff (by norm_num : (0:ℚ) < 1000000000)]
  constructor
  · intro h
    have : (50 * 10 ^ 9 : ℚ) < (g : ℚ) := by norm_num at h ⊢; linarith
    exact_mod_cast this
  · intro h
    have : (50 * 10 ^ 9 : ℚ) < (g : ℚ) := by exact_mod_cast h
    norm_num at this ⊢
    linarith

/-- `determineCongestionLevel` restated over wei thresholds. -/
lemma determineCongestionLevel_eq (g : Int) (rt : ℚ) :
    determineCongestionLevel g rt =
      if 100 * 10 ^ 9 < g ∨ 5000 < rt then .high
      else if 50 * 10 ^ 9 < g ∨ 2000 < rt then .medium
      else .low := by
  simp only [determineCongestionLevel, gt_iff_lt]
  have h100 := gasGwei_gt_100 g
  have h50 := gasGwei_gt_50 g
  rw [gt_iff_lt] at h100 h50
  simp only [h100, h50]

/-! ## C8: congestion thresholds -/

/-- C8: `determineCongestionLevel` returns `high` iff the gas price exceeds
100 Gwei (`100 * 10^9` wei) or the response time exceeds 5000 ms; otherwise
`medium` iff the gas price exceeds 50 Gwei or the response time exceeds
2000 ms; otherwise `low` — either dimension alone escalates, and the higher
of the two implied levels wins. -/
theorem determineCongestionLevel_thresholds (g : Int) (rt : ℚ) :
    (determineCongestionLevel g rt = .high ↔ 100 * 10 ^ 9 < g ∨ 5000 < rt) ∧
    (determineCongestionLevel g rt = .medium ↔
      ¬(100 * 10 ^ 9 < g ∨ 5000 < rt) ∧ (50 * 10 ^ 9 < g ∨ 2000 < rt)) ∧
    (determineCongestionLevel g rt = .low ↔
      ¬(100 * 10 ^ 9 < g ∨ 5000 < rt) ∧ ¬(50 * 10 ^ 9 < g ∨ 2000 < rt)) := by
  rw [determineCongestionLevel_eq]
  split_ifs with h1 h2
  · exact ⟨⟨fun _ => h1, fun _ => rfl⟩,
      ⟨fun h => (nomatch h), fun h => absurd h1 h.1⟩,
      ⟨fun h => (nomatch h), fun h => absurd h1 h.1⟩⟩
  · exact ⟨⟨fun h => (nomatch h), fun ha => absurd ha h1⟩,
      ⟨fun _ => ⟨h1, h2⟩, fun _ => rfl⟩,
      ⟨fun h => (nomatch h), fun h => absurd h2 h.2⟩⟩
  · exact ⟨⟨fun h => (nomatch h), fun ha => absurd ha h1⟩,
      ⟨fun h => (nomatch h), fun h => absurd h.2 h2⟩,
      ⟨fun _ => ⟨h1, h2⟩, fun _ => rfl⟩⟩

/-! ## C9: boundary behaviour (corrected) -/

/-- C9 counterexample: at exactly 100 Gwei (and fast responses) the code
returns `medium`, not `high`; at exactly 50 Gwei it returns `low`, not at
least `medium` — the strict `>` comparisons resolve boundaries to the
*lower* tier, contradicting the claim. -/
theorem determineCongestionLevel_boundary_cex :
    determineCongestionLevel (100 * 10 ^ 9) 0 = .medium ∧
    NetworkCongestionLevel.medium ≠ NetworkCongestionLevel.high ∧
    determineCongestionLevel (50 * 10 ^ 9) 0 = .low ∧
    NetworkCongestionLevel.low ≠ NetworkCongestionLevel.medium := by
  refine ⟨?_, by decide, ?_, by decide⟩
  · rw [determineCongestionLevel_eq]
    norm_num
  · rw [determineCongestionLevel_eq]
    norm_num

/-- C9 amended: boundary inputs resolve to the *lower* of the two adjacent
tiers (strict `>` comparisons): exactly 50 Gwei with response ≤ 2000 ms is
`low`; exactly 100 Gwei with response ≤ 5000 ms is `medium`; exactly 2000 ms
with gas ≤ 50 Gwei is `low`; exactly 5000 ms with gas ≤ 100 Gwei is
`medium`. -/
theorem determineCongestionLevel_boundary (g : Int) (rt : ℚ) :
    (g = 50 * 10 ^ 9 → rt ≤ 2000 → determineCongestionLevel g rt = .low) ∧
    (g = 100 * 10 ^ 9 → rt ≤ 5000 → determineCongestionLevel g rt = .medium) ∧
    (rt = 2000 → g ≤ 50 * 10 ^ 9 → determineCongestionLevel g rt = .low) ∧
    (rt = 5000 → g ≤ 100 * 10 ^ 9 → determineCongestionLevel g rt = .medium) := by
  rw [determineCongestionLevel_eq]
  refine ⟨?_, ?_, ?_, ?_⟩
  · rintro rfl h
    rw [if_neg (by push_neg; constructor <;> [norm_num; linarith]),
        if_neg (by push_neg; constructor <;> [norm_num; linarith])]
  · rintro rfl h
    rw [if_neg (by push_neg; constructor <;> [norm_num; linarith]),
        if_pos (by left; norm_num)]
  · rintro rfl h
    rw [if_neg (by push_neg; constructor <;> [linarith; norm_num]),
        if_neg (by push_neg; constructor <;> [linarith; norm_num])]
  · rintro rfl h
    rw [if_neg (by push_neg; constructor <;> [linarith; norm_num]),
        if_pos (by right; norm_num)]

/-- Witness for C9's amended theorem at the four concrete boundary points. -/
theorem determineCongestionLevel_boundary_witness :
    determineCongestionLevel (50 * 10 ^ 9) 0 = .low ∧
    determineCongestionLevel (100 * 10 ^ 9) 0 = .medium ∧
    determineCongestionLevel 0 2000 = .low ∧
    determineCongestionLevel 0 5000 = .medium :=
  ⟨(determineCongestionLevel_boundary (50 * 10 ^ 9) 0).1 rfl (by norm_num),
   (determineCongestionLevel_boundary (100 * 10 ^ 9) 0).2.1 rfl (by norm_num),
   (determineCongestionLevel_boundary 0 2000).2.2.1 rfl (by norm_num),
   (determineCongestionLevel_boundary 0 5000).2.2.2 rfl (by norm_num)⟩

/-! ## C10: consent gate -/

/-- C10: `requestUserConsent` always resolves `true`: with zero delay when
the action does not require consent, and with delay exactly
`min(timeoutMs, 5000)` (hence at most that) otherwise — consent is never
denied in this implementation. -/
theorem requestUserConsent_always_true (request : ConsentRequest) :
    (requestUserConsent request).1 = true ∧
    (request.action.requiresConsent = false → (requestUserConsent request).2 = 0) ∧
    (request.action.requiresConsent = true →
      (requestUserConsent request).2 = min request.timeout 5000) := by
  by_cases h : request.action.requiresConsent = true
  · exact ⟨by simp [requestUserConsent, h], by simp [h], fun _ => by simp [requestUserConsent, h]⟩
  · rw [Bool.not_eq_true] at h
    exact ⟨by simp [requestUserConsent, h], fun _ => by simp [requestUserConsent, h],
      by simp [h]⟩

/-- Witness for C10 at one consent-free and one consent-requiring request. -/
theorem requestUserConsent_always_true_witness :
    (requestUserConsent
      { action := { type := .retry, description := "r", automatic := true,
                    requiresConsent := false },
        reason := "w", timeout := 3000 }).2 = 0 ∧
    (requestUserConsent
      { action := { type := .retry, description := "r", automatic := false,
                    requiresConsent := true },
        reason := "w", timeout := 9000 }).2 = min 9000 5000 :=
  ⟨(requestUserConsent_always_true _).2.1 rfl,
   (requestUserConsent_always_true _).2.2 rfl⟩

/-! ## C6: per-probe metric updates -/

/-- C6: after `checkRPCEndpointHealth`, a successful probe yields
`errorCount = 0`, `successRate = 100`, status `healthy` and
`isActive = true`; a failed probe increments `errorCount` by exactly one
from its prior value and yields `successRate = 0`, status `down` and
`isActive = false`; in both cases `responseTime` and `lastChecked` are set
to the newly measured values (last-probe semantics, not a rolling
average). -/
theorem checkRPCEndpointHealth_spec (ep : RPCEndpoint) (env : ProbeEnv) :
    ((supportedChain ep.chainId && env.rpcOk) = true →
      (checkRPCEndpointHealth ep env).metrics.errorCount = 0 ∧
      (checkRPCEndpointHealth ep env).metrics.successRate = 100 ∧
      (checkRPCEndpointHealth ep env).status = .healthy ∧
      (checkRPCEndpointHealth ep env).isActive = true ∧
      (checkRPCEndpointHealth ep env).metrics.responseTime = env.elapsed ∧
      (checkRPCEndpointHealth ep env).metrics.lastChecked = env.time) ∧
    ((supportedChain ep.chainId && env.rpcOk) = false →
      (checkRPCEndpointHealth ep env).metrics.errorCount = ep.metrics.errorCount + 1 ∧
      (checkRPCEndpointHealth ep env).metrics.successRate = 0 ∧
      (checkRPCEndpointHealth ep env).status = .down ∧
      (checkRPCEndpointHealth ep env).isActive = false ∧
      (checkRPCEndpointHealth ep env).metrics.responseTime = env.elapsed ∧
      (checkRPCEndpointHealth ep env).metrics.lastChecked = env.time) := by
  constructor
  · intro h
    simp [checkRPCEndpointHealth, h]
  · intro h
    simp [checkRPCEndpointHealth, h]

/-- Witness for C6: a successful probe of a supported-chain endpoint and a
failed probe (unsupported chain id), with `errorCount` going from 2 to 3. -/
theorem checkRPCEndpointHealth_spec_witness :
    ((checkRPCEndpointHealth epForno { rpcOk := true, elapsed := 120, time := 7 }).status =
      .healthy) ∧
    ((checkRPCEndpointHealth epBadChain { rpcOk := true, elapsed := 15, time := 7 }).metrics.errorCount =
      epBadChain.metrics.errorCount + 1) :=
  ⟨((checkRPCEndpointHealth_spec epForno
      { rpcOk := true, elapsed := 120, time := 7 }).1 (by decide)).2.2.1,
   ((checkRPCEndpointHealth_spec epBadChain
      { rpcOk := true, elapsed := 15, time := 7 }).2 (by decide)).1⟩

/-! ## C2: context hint vs. message keywords (corrected) -/

/-- C2 counterexample: with `error.message = "network issue"` and context
hint `"wallet"`, `classifyError` returns `network`, not the hinted `wallet`
— the hint does not win outright over message content. -/
theorem classifyError_hint_cex :
    classifyError ⟨"network issue"⟩ (some "wallet") = .network ∧
    ErrorCategory.network ≠ ErrorCategory.wallet := by decide

/-- C2 amended: a context hint equal to one of the four category names makes
`classifyError` return that category provided no category checked earlier in
the fixed order (network, wallet, transaction, browser) matches the message
keywords; message keywords of an earlier category take precedence over the
hint. -/
theorem classifyError_hint (error : JsError) (c : ErrorCategory)
    (h : msgMatchesBefore (lowerStr error.message) c = false) :
    classifyError error (some (categoryName c)) = c := by
  cases c with
  | network =>
    simp [classifyError, categoryName,
      (by decide : jsIncludes (lowerStr "network") "network" = true)]
  | wallet =>
    simp only [msgMatchesBefore] at h
    simp [classifyError, categoryName, h,
      (by decide : jsIncludes (lowerStr "wallet") "network" = false),
      (by decide : jsIncludes (lowerStr "wallet") "wallet" = true)]
  | transaction =>
    simp only [msgMatchesBefore, Bool.or_eq_false_iff] at h
    obtain ⟨h1, h2⟩ := h
    simp [classifyError, categoryName, h1, h2,
      (by decide : jsIncludes (lowerStr "transaction") "network" = false),
      (by decide : jsIncludes (lowerStr "transaction") "wallet" = false),
      (by decide : jsIncludes (lowerStr "transaction") "transaction" = true)]
  | browser =>
    simp only [msgMatchesBefore, Bool.or_eq_false_iff] at h
    obtain ⟨⟨h1, h2⟩, h3⟩ := h
    simp [classifyError, categoryName, h1, h2, h3,
      (by decide : jsIncludes (lowerStr "browser") "network" = false),
      (by decide : jsIncludes (lowerStr "browser") "wallet" = false),
      (by decide : jsIncludes (lowerStr "browser") "transaction" = false),
      (by decide : jsIncludes (lowerStr "browser") "browser" = true)]

/-- Witness for C2's amended theorem: the spec's own example
`classify(Error("anything"), "wallet") == Wallet`. -/
theorem classifyError_hint_witness :
    classifyError ⟨"anything"⟩ (some "wallet") = .wallet :=
  classifyError_hint ⟨"anything"⟩ .wallet (by decide)

/-! ## C5: endpoint selection -/

/-- One fold step never increases the score relative to the accumulator. -/
lemma epStep_le_left (x e : RPCEndpoint) :
    epScore (if epScore x < epScore e then x else e) ≤ epScore e := by
  split_ifs with hc
  · exact le_of_lt hc
  · exact le_rfl

/-- One fold step never exceeds the score of the examined element. -/
lemma epStep_le_right (x e : RPCEndpoint) :
    epScore (if epScore x < epScore e then x else e) ≤ epScore x := by
  split_ifs with hc
  · exact le_rfl
  · exact le_of_not_lt hc

/-- The fold of `switchRpcEndpoint` picks an element of the candidate list. -/
lemma pickBest_mem :
    ∀ (rest : List RPCEndpoint) (e : RPCEndpoint),
      rest.foldl (fun best ep => if epScore ep < epScore best then ep else best) e ∈ e :: rest := by
  intro rest
  induction rest with
  | nil => intro e; simp
  | cons x xs ih =>
    intro e
    simp only [List.foldl_cons]
    by_cases hc : epScore x < epScore e
    · rw [if_pos hc]
      exact List.mem_cons_of_mem e (ih x)
    · rw [if_neg hc]
      rcases List.mem_cons.mp (ih e) with h | h
      · rw [h]; exact List.mem_cons_self _ _
      · exact List.mem_cons_of_mem _ (List.mem_cons_of_mem _ h)

/-- The fold of `switchRpcEndpoint` attains the minimal score of the
candidate list. -/
lemma pickBest_le :
    ∀ (rest : List RPCEndpoint) (e y : RPCEndpoint), y ∈ e :: rest →
      epScore (rest.foldl (fun best ep => if epScore ep < epScore best then ep else best) e) ≤
        epScore y := by
  intro rest
  induction rest with
  | nil =>
    intro e y hy
    rw [List.mem_singleton] at hy
    subst hy
    simp
  | cons x xs ih =>
    intro e y hy
    simp only [List.foldl_cons]
    rcases List.mem_cons.mp hy with rfl | hy'
    · exact le_trans (ih _ _ (List.mem_cons_self _ _)) (epStep_le_left x y)
    · rcases List.mem_cons.mp hy' with rfl | hy''
      · exact le_trans (ih _ _ (List.mem_cons_self _ _)) (epStep_le_right y e)
      · exact ih _ _ (List.mem_cons_of_mem _ hy'')

/-- The fold of `switchRpcEndpoint` splits the candidate list so that every
candidate strictly before the chosen one has a strictly larger score: the
choice is the *earliest* minimal-score candidate (head of the stable
sort). -/
lemma pickBest_first :
    ∀ (rest : List RPCEndpoint) (e : RPCEndpoint),
      ∃ l1 l2, e :: rest =
          l1 ++ (rest.foldl (fun best ep => if epScore ep < epScore best then ep else best) e) :: l2 ∧
        ∀ y ∈ l1,
          epScore (rest.foldl (fun best ep => if epScore ep < epScore best then ep else best) e) <
            epScore y := by
  intro rest
  induction rest with
  | nil => intro e; exact ⟨[], [], rfl, by simp⟩
  | cons x xs ih =>
    intro e
    simp only [List.foldl_cons]
    by_cases hc : epScore x < epScore e
    · rw [if_pos hc]
      obtain ⟨l1, l2, hsplit, hlt⟩ := ih x
      refine ⟨e :: l1, l2, ?_, ?_⟩
      · rw [List.cons_append, ← hsplit]
      · intro y hy
        rcases List.mem_cons.mp hy with rfl | hy'
        · exact lt_of_le_of_lt (pickBest_le xs x x (List.mem_cons_self _ _)) hc
        · exact hlt y hy'
    · rw [if_neg hc]
      obtain ⟨l1, l2, hsplit, hlt⟩ := ih e
      cases l1 with
      | nil =>
        simp only [List.nil_append] at hsplit
        injection hsplit with h1 h2
        refine ⟨[], x :: xs, ?_, by simp⟩
        rw [List.nil_append, ← h1]
      | cons a l1' =>
        simp only [List.cons_append] at hsplit
        injection hsplit with h1 h2
        subst h1
        refine ⟨e :: x :: l1', l2, ?_, ?_⟩
        · rw [List.cons_append, List.cons_append, ← h2]
        · intro y hy
          have he_lt : epScore (xs.foldl
              (fun best ep => if epScore ep < epScore best then ep else best) e) < epScore e :=
            hlt e (List.mem_cons_self _ _)
          rcases List.mem_cons.mp hy with rfl | hy'
          · exact he_lt
          · rcases List.mem_cons.mp hy' with rfl | hy''
            · exact lt_of_lt_of_le he_lt (le_of_not_lt hc)
            · exact hlt y (List.mem_cons_of_mem _ hy'')

/-- C5: `switchRpcEndpoint` returns `null` exactly when no pool endpoint is
healthy, active and url-distinct from the current one (in particular on the
pool `[current]`); otherwise it returns a healthy, active endpoint distinct
from `current` that minimises `responseTime + (100 - successRate)`, the
earliest pool candidate in case of ties (stable, deterministic selection);
it never returns `current` or a down/inactive endpoint. -/
theorem switchRpcEndpoint_spec (current : RPCEndpoint) (pool : List RPCEndpoint) :
    (switchRpcEndpoint current pool = none ↔
      ∀ ep ∈ pool, ¬(ep.status = .healthy ∧ ep.isActive = true ∧ ep.url ≠ current.url)) ∧
    (∀ e, switchRpcEndpoint current pool = some e →
      e.status = .healthy ∧ e.isActive = true ∧ e.url ≠ current.url ∧ e ≠ current ∧
      e ∈ pool ∧
      (∀ f ∈ pool, f.status = .healthy → f.isActive = true → f.url ≠ current.url →
        epScore e ≤ epScore f) ∧
      ∃ l1 l2, pool.filter (isCandidate current) = l1 ++ e :: l2 ∧
        ∀ f ∈ l1, epScore e < epScore f) ∧
    switchRpcEndpoint current [current] = none := by
  have hcand : ∀ ep : RPCEndpoint, isCandidate current ep = true ↔
      (ep.status = .healthy ∧ ep.isActive = true ∧ ep.url ≠ current.url) := by
    intro ep
    simp [isCandidate, and_assoc]
  refine ⟨?_, ?_, ?_⟩
  · rw [switchRpcEndpoint]
    cases hfil : pool.filter (isCandidate current) with
    | nil =>
      simp only [hfil]
      constructor
      · intro _ ep hep hP
        exact (List.filter_eq_nil.mp hfil ep hep) ((hcand ep).mpr hP)
      · intro _; trivial
    | cons hd tl =>
      simp only [hfil]
      constructor
      · intro habs; exact absurd habs (Option.some_ne_none _)
      · intro hall
        have hh : hd ∈ pool.filter (isCandidate current) := by
          rw [hfil]; exact List.mem_cons_self _ _
        have hm := List.mem_filter.mp hh
        exact absurd ((hcand hd).mp hm.2) (hall hd hm.1)
  · intro e he
    rw [switchRpcEndpoint] at he
    cases hfil : pool.filter (isCandidate current) with
    | nil =>
      rw [hfil] at he
      exact absurd he (by simp)
    | cons hd tl =>
      rw [hfil] at he
      simp only [Option.some.injEq] at he
      have hmem_f : e ∈ pool.filter (isCandidate current) := by
        rw [hfil]; exact he ▸ pickBest_mem tl hd
      obtain ⟨hpool, hc⟩ := List.mem_filter.mp hmem_f
      have hP := (hcand e).mp hc
      refine ⟨hP.1, hP.2.1, hP.2.2, ?_, hpool, ?_, ?_⟩
      · intro hEq; exact hP.2.2 (by rw [hEq])
      · intro f hf hs ha hu
        have hf_fil : f ∈ pool.filter (isCandidate current) :=
          List.mem_filter.mpr ⟨hf, (hcand f).mpr ⟨hs, ha, hu⟩⟩
        rw [hfil] at hf_fil
        exact he ▸ pickBest_le tl hd f hf_fil
      · obtain ⟨l1, l2, hsp, hlt⟩ := pickBest_first tl hd
        exact ⟨l1, l2, by rw [← he]; exact hsp, fun y hy => he ▸ hlt y hy⟩
  · simp [switchRpcEndpoint, isCandidate]

/-- Witness for C5: on the pool `[epForno, epAnkr, epDown]` with current
endpoint `epForno`, the selector picks `epAnkr`, which is distinct from the
current endpoint and has minimal score. -/
theorem switchRpcEndpoint_spec_witness :
    switchRpcEndpoint epForno [epForno, epAnkr, epDown] = some epAnkr ∧
    epAnkr ≠ epForno ∧ epScore epAnkr ≤ epScore epAnkr := by
  have h := (switchRpcEndpoint_spec epForno [epForno, epAnkr, epDown]).2.1 epAnkr (by decide)
  exact ⟨by decide, h.2.2.2.1, h.2.2.2.2.2.1 epAnkr (by decide) (by decide) (by decide) (by decide)⟩

/-! ## C4: bounded exponential backoff -/

/-- `retryFrom` when the operation first succeeds `j` attempts after the
starting attempt `a` (with `j` within the remaining budget): the operation
runs `j + 1` times and the total delay is the sum of the backoff delays of
the failed attempts. -/
lemma retryFrom_ok {α : Type} (op : Nat → Except JsError α) (cfg : RetryConfig) (v : α) :
    ∀ (j a r : Nat), j ≤ r →
      (∀ i, i < j → ∃ e, op (a + i) = .error e) →
      op (a + j) = .ok v →
      retryFrom op cfg a r =
        (.ok v, j + 1, ∑ i in Finset.range j, backoffDelay cfg (a + i)) := by
  intro j
  induction j with
  | zero =>
    intro a r _ _ hok
    rw [Nat.add_zero] at hok
    cases r with
    | zero => simp [retryFrom, hok]
    | succ r' => simp [retryFrom, hok]
  | succ j ih =>
    intro a r hjr hfail hok
    obtain ⟨e0, he0⟩ := hfail 0 (Nat.succ_pos j)
    rw [Nat.add_zero] at he0
    cases r with
    | zero => omega
    | succ r' =>
      have hrec := ih (a + 1) r' (by omega)
        (fun i hi => by
          obtain ⟨e, he⟩ := hfail (i + 1) (by omega)
          exact ⟨e, by rw [show a + 1 + i = a + (i + 1) by omega]; exact he⟩)
        (by rw [show a + 1 + j = a + (j + 1) by omega]; exact hok)
      simp only [retryFrom, he0]
      rw [hrec]
      simp only [Prod.mk.injEq]
      refine ⟨trivial, trivial, ?_⟩
      rw [Finset.sum_range_succ', Nat.add_zero]
      congr 1
      apply Finset.sum_congr rfl
      intro i _
      congr 1
      omega

/-- `retryFrom` when every attempt in the remaining budget fails: the final
error is returned after `r + 1` invocations, and the total delay sums the
backoff delays of all non-final attempts. -/
lemma retryFrom_err {α : Type} (op : Nat → Except JsError α) (cfg : RetryConfig) (e : JsError) :
    ∀ (r a : Nat),
      (∀ i, i < r → ∃ e', op (a + i) = .error e') →
      op (a + r) = .error e →
      retryFrom op cfg a r =
        ((Except.error e : Except JsError α), r + 1,
          ∑ i in Finset.range r, backoffDelay cfg (a + i)) := by
  intro r
  induction r with
  | zero =>
    intro a _ hlast
    rw [Nat.add_zero] at hlast
    simp [retryFrom, hlast]
  | succ r' ih =>
    intro a hfail hlast
    obtain ⟨e0, he0⟩ := hfail 0 (Nat.succ_pos r')
    rw [Nat.add_zero] at he0
    have hrec := ih (a + 1)
      (fun i hi => by
        obtain ⟨e', he'⟩ := hfail (i + 1) (by omega)
        exact ⟨e', by rw [show a + 1 + i = a + (i + 1) by omega]; exact he'⟩)
      (by rw [show a + 1 + r' = a + (r' + 1) by omega]; exact hlast)
    simp only [retryFrom, he0]
    rw [hrec]
    simp only [Prod.mk.injEq]
    refine ⟨trivial, trivial, ?_⟩
    rw [Finset.sum_range_succ', Nat.add_zero]
    congr 1
    apply Finset.sum_congr rfl
    intro i _
    congr 1
    omega

/-- C4: with `maxAttempts ≥ 1`, if the operation first succeeds on attempt
`k ≤ maxAttempts`, `retryWithBackoff` invokes it exactly `k` times with
total delay `∑_(i=1..k-1) min(initialDelay * backoffMultiplier^(i-1),
maxDelay)`; if all `maxAttempts` attempts fail, it re-raises the final
attempt's error unchanged (after `maxAttempts` invocations and the full
delay sum). -/
theorem retryWithBackoff_spec {α : Type} (op : Nat → Except JsError α)
    (cfg : RetryConfig) (hmax : 1 ≤ cfg.maxAttempts) :
    (∀ k v, 1 ≤ k → k ≤ cfg.maxAttempts →
      (∀ i, 1 ≤ i → i < k → ∃ e, op i = .error e) →
      op k = .ok v →
      retryWithBackoff op cfg =
        (.ok v, k, ∑ i in Finset.Ico 1 k, backoffDelay cfg i)) ∧
    (∀ e, (∀ i, 1 ≤ i → i < cfg.maxAttempts → ∃ e', op i = .error e') →
      op cfg.maxAttempts = .error e →
      retryWithBackoff op cfg =
        (.error e, cfg.maxAttempts, ∑ i in Finset.Ico 1 cfg.maxAttempts, backoffDelay cfg i)) := by
  constructor
  · intro k v hk1 hkmax hfail hok
    have h := retryFrom_ok op cfg v (k - 1) 1 (cfg.maxAttempts - 1) (by omega)
      (fun i hi => by
        obtain ⟨e, he⟩ := hfail (1 + i) (by omega) (by omega)
        exact ⟨e, he⟩)
      (by rw [show 1 + (k - 1) = k by omega]; exact hok)
    rw [retryWithBackoff, h]
    have hs : ∑ i in Finset.range (k - 1), backoffDelay cfg (1 + i) =
        ∑ i in Finset.Ico 1 k, backoffDelay cfg i := by
      rw [Finset.sum_Ico_eq_sum_range]
    rw [hs, show k - 1 + 1 = k by omega]
  · intro e hfail hlast
    have h := retryFrom_err op cfg e (cfg.maxAttempts - 1) 1
      (fun i hi => by
        obtain ⟨e', he'⟩ := hfail (1 + i) (by omega) (by omega)
        exact ⟨e', he'⟩)
      (by rw [show 1 + (cfg.maxAttempts - 1) = cfg.maxAttempts by omega]; exact hlast)
    rw [retryWithBackoff, h]
    have hs : ∑ i in Finset.range (cfg.maxAttempts - 1), backoffDelay cfg (1 + i) =
        ∑ i in Finset.Ico 1 cfg.maxAttempts, backoffDelay cfg i := by
      rw [Finset.sum_Ico_eq_sum_range]
    rw [hs, show cfg.maxAttempts - 1 + 1 = cfg.maxAttempts by omega]

/-- Witness for C4: `opW` under the default config succeeds on attempt 3
after delays 1000 + 2000 ms; under a two-attempt config it re-raises the
final error after one 1000 ms delay. -/
theorem retryWithBackoff_spec_witness :
    retryWithBackoff opW defaultRetryConfig = (.ok 7, 3, 3000) ∧
    retryWithBackoff opW
        { maxAttempts := 2, initialDelay := 1000, backoffMultiplier := 2, maxDelay := 30000 } =
      (.error ⟨"boom"⟩, 2, 1000) := by
  constructor
  · have h := (retryWithBackoff_spec opW defaultRetryConfig (by decide)).1 3 7
      (by decide) (by decide)
      (fun i h1 h2 => ⟨⟨"boom"⟩, by unfold opW; rw [if_pos (by omega)]⟩)
      rfl
    rw [h, Finset.sum_Ico_eq_sum_range]
    norm_num [Finset.sum_range_succ, backoffDelay, defaultRetryConfig]
  · have h := (retryWithBackoff_spec opW
        { maxAttempts := 2, initialDelay := 1000, backoffMultiplier := 2, maxDelay := 30000 }
        (by decide)).2 ⟨"boom"⟩
      (fun i h1 h2 => ⟨⟨"boom"⟩, by
        have h2' : i < 2 := h2
        unfold opW
        rw [if_pos (by omega)]⟩)
      rfl
    rw [h, Finset.sum_Ico_eq_sum_range]
    norm_num [Finset.sum_range_succ, backoffDelay]

/-! ## C1: first automatic action wins (corrected) -/

/-- C1 counterexample: on `recoverFromError(Error("network unreachable"))`
with a healthy alternative endpoint available, the single successful attempt
is of type `retry`, not `switch_rpc`: the catalog lists Retry before
SwitchEndpoint and the orchestrator treats Retry as unconditionally
successful. -/
theorem recoverFromError_switch_cex :
    ((recoverFromError ⟨"network unreachable"⟩ none (some [epForno, epAnkr])).recovered
      = true) ∧
    ((recoverFromError ⟨"network unreachable"⟩ none (some [epForno, epAnkr])).attempts.map
      (fun a => a.action.type) = [ActionType.retry]) ∧
    (epAnkr.status = .healthy ∧ epAnkr.isActive = true ∧ epAnkr.url ≠ epForno.url) ∧
    ActionType.retry ≠ ActionType.switch_rpc := by decide

/-- C1 amended: for every call with `error.message = "network unreachable"`
and a healthy, active alternative distinct from the first pool entry, the
result has `recovered = true` and exactly one attempt, whose action type is
`retry` (the first automatic catalog action, treated as unconditionally
successful); the orchestrator stops at the first successful automatic
action. -/
theorem recoverFromError_network_unreachable (error : JsError) (ctx : Option String)
    (eps : List RPCEndpoint)
    (hmsg : error.message = "network unreachable")
    (halt : ∃ ep ∈ eps, ep.status = .healthy ∧ ep.isActive = true ∧
      ∃ e0, eps.head? = some e0 ∧ ep.url ≠ e0.url) :
    (recoverFromError error ctx (some eps)).recovered = true ∧
    (recoverFromError error ctx (some eps)).attempts.map (fun a => a.action.type) =
      [ActionType.retry] := by
  obtain ⟨msg⟩ := error
  simp only at hmsg
  subst hmsg
  have hcat : classifyError ⟨"network unreachable"⟩ ctx = .network := by
    have hm : msgMatches (lowerStr "network unreachable") .network = true := by decide
    simp [classifyError, hm]
  simp [recoverFromError, hcat, generateUserMessage, recoverLoop, performAction,
    requestUserConsent]

/-- Witness for C1's amended theorem on the pool `[epForno, epAnkr]`. -/
theorem recoverFromError_network_unreachable_witness :
    (recoverFromError ⟨"network unreachable"⟩ none (some [epForno, epAnkr])).recovered = true :=
  (recoverFromError_network_unreachable ⟨"network unreachable"⟩ none [epForno, epAnkr] rfl
    ⟨epAnkr, by decide, by decide, by decide, epForno, rfl, by decide⟩).1

/-! ## C7: failures as data, orchestrator never throws -/

/-- Every exit of `recoverLoop` carries the message it was given. -/
lemma recoverLoop_message (error : JsError) (category : ErrorCategory)
    (message : UserMessage) (aeps : Option (List RPCEndpoint)) :
    ∀ (acts : List RecoveryAction) (atts : List RecoveryAttempt),
      (recoverLoop error category message aeps acts atts).message = message := by
  intro acts
  induction acts with
  | nil => intro atts; rfl
  | cons a rest ih =>
    intro atts
    simp only [recoverLoop]
    split_ifs <;> first | rfl | exact ih _

/-- C7: the prober encodes failure (including an unsupported chain id) as
status/metrics data rather than an exception; the health monitor processes
every endpoint of the batch; `recoverFromError` always returns the
`UserMessage` built from the classification, and for a category without
automatic actions (Browser) it reports `recovered = false` with an empty
attempt list. -/
theorem noThrow_data_encoding (ep : RPCEndpoint) (env : ProbeEnv)
    (eps : List RPCEndpoint) (envf : RPCEndpoint → ProbeEnv)
    (error : JsError) (ctx : Option String) (aeps : Option (List RPCEndpoint)) :
    (supportedChain ep.chainId = false →
      (checkRPCEndpointHealth ep env).status = .down ∧
      (checkRPCEndpointHealth ep env).isActive = false) ∧
    ((checkRPCEndpointHealth ep env).status = .healthy ∨
      (checkRPCEndpointHealth ep env).status = .down) ∧
    (checkMultipleEndpoints eps envf).length = eps.length ∧
    (recoverFromError error ctx aeps).message =
      generateUserMessage error (classifyError error ctx) ∧
    (classifyError error ctx = .browser →
      (recoverFromError error ctx aeps).recovered = false ∧
      (recoverFromError error ctx aeps).attempts = []) := by
  refine ⟨?_, ?_, ?_, ?_, ?_⟩
  · intro h
    simp [checkRPCEndpointHealth, h]
  · by_cases h : (supportedChain ep.chainId && env.rpcOk) = true
    · left; simp [checkRPCEndpointHealth, h]
    · right
      rw [Bool.not_eq_true] at h
      simp [checkRPCEndpointHealth, h]
  · simp [checkMultipleEndpoints]
  · simp only [recoverFromError]
    exact recoverLoop_message _ _ _ _ _ _
  · intro hcat
    simp [recoverFromError, hcat, generateUserMessage, recoverLoop]

/-- Witness for C7: an unsupported-chain probe is encoded as `down`, and a
browser-category error yields `recovered = false` with no attempts. -/
theorem noThrow_data_encoding_witness :
    (checkRPCEndpointHealth epBadChain { rpcOk := true, elapsed := 15, time := 7 }).status
      = .down ∧
    (recoverFromError ⟨"unsupported browser"⟩ none none).recovered = false ∧
    (recoverFromError ⟨"unsupported browser"⟩ none none).attempts = [] := by
  have h := noThrow_data_encoding epBadChain { rpcOk := true, elapsed := 15, time := 7 }
    [] (fun _ => { rpcOk := true, elapsed := 0, time := 0 })
    ⟨"unsupported browser"⟩ none none
  exact ⟨(h.1 (by decide)).1, (h.2.2.2.2 (by decide)).1, (h.2.2.2.2 (by decide)).2⟩

/-! ## C3: stale-on-error (corrected) -/

/-- The gas/block fallback loop leaves its accumulator unchanged when every
listed endpoint fails at the gas-price call. -/
lemma gasMetricsLoop_const (gasFetch : RPCEndpoint → GasFetchOutcome) :
    ∀ (l : List RPCEndpoint) (acc : Int × Int × ℚ × Int),
      (∀ e ∈ l, gasFetch e = .failGas) →
      gasMetricsLoop gasFetch l acc = acc := by
  intro l
  induction l with
  | nil => intro acc _; rfl
  | cons x xs ih =>
    intro acc hall
    have hx := hall x (List.mem_cons_self _ _)
    obtain ⟨g, t, bt, ln⟩ := acc
    simp only [gasMetricsLoop, hx]
    exact ih _ (fun e he => hall e (List.mem_cons_of_mem _ he))

/-- C3 counterexample: with a stale cache, one healthy endpoint, and a gas
fetch that fails on every active endpoint, the refresh still stores a new
snapshot: the previously stored snapshot is overwritten (its `data` field
changes and stays populated), contradicting stale-on-error. -/
theorem fetchHealth_stale_cex :
    (∀ e ∈ (checkMultipleEndpoints [epForno] probeOkEnv).filter (fun e => e.isActive),
      gasFailAll e = .failGas) ∧
    (fetchHealth stPrior 10000 42220 [epForno] probeOkEnv gasFailAll 20000).data ≠
      stPrior.data ∧
    (fetchHealth stPrior 10000 42220 [epForno] probeOkEnv gasFailAll 20000).data ≠ none := by
  have hnew : (fetchHealth stPrior 10000 42220 [epForno] probeOkEnv gasFailAll 20000).data.map
      (fun d => d.metrics.lastBlockNumber) = some 0 := by decide
  have hold : stPrior.data.map (fun d => d.metrics.lastBlockNumber) = some 999 := by decide
  refine ⟨by decide, ?_, ?_⟩
  · intro h
    rw [h, hold] at hnew
    exact absurd hnew (by decide)
  · intro h
    rw [h] at hnew
    simp at hnew

/-- C3 amended: when the endpoint list is non-empty, the cached snapshot is
not fresh, and every active endpoint fails at the gas-price call, the
refresh *succeeds*: it stores a new snapshot (overwriting the previous one)
with defaulted gas metrics — transaction success rate 0, block production
time 0, last block number 0, congestion derived from gas price 0 — and
updates the fetch time; the previous snapshot is preserved only by the
cache-freshness bailout or the empty-endpoint bailout, not on gas/block
failure. -/
theorem fetchHealth_overwrite (st : HealthState) (cacheTimeout chainId : Int)
    (endpoints : List RPCEndpoint) (probeEnv : RPCEndpoint → ProbeEnv)
    (gasFetch : RPCEndpoint → GasFetchOutcome) (now : Int)
    (hne : endpoints ≠ [])
    (hstale : ¬(st.data.isSome ∧ now - st.lastFetchTime < cacheTimeout))
    (hfail : ∀ e ∈ (checkMultipleEndpoints endpoints probeEnv).filter (fun e => e.isActive),
      gasFetch e = .failGas) :
    (fetchHealth st cacheTimeout chainId endpoints probeEnv gasFetch now).lastFetchTime = now ∧
    (fetchHealth st cacheTimeout chainId endpoints probeEnv gasFetch now).data.isSome = true ∧
    ∀ d, (fetchHealth st cacheTimeout chainId endpoints probeEnv gasFetch now).data = some d →
      d.metrics.transactionSuccessRate = 0 ∧
      d.metrics.blockProductionTime = 0 ∧
      d.metrics.lastBlockNumber = 0 ∧
      d.congestionLevel = determineCongestionLevel 0
        (calculateAverageResponseTime
          ((checkMultipleEndpoints endpoints probeEnv).map (fun e => e.metrics))) ∧
      d.lastUpdated = now := by
  have h1 : ¬(endpoints.length = 0) := fun h => hne (List.length_eq_zero.mp h)
  simp only [fetchHealth, if_neg h1, if_neg hstale]
  rw [gasMetricsLoop_const gasFetch _ _ hfail]
  refine ⟨trivial, rfl, ?_⟩
  intro d hd
  rw [Option.some.injEq] at hd
  subst hd
  exact ⟨rfl, rfl, rfl, rfl, rfl⟩

/-- Witness for C3's amended theorem on the concrete stale state. -/
theorem fetchHealth_overwrite_witness :
    (fetchHealth stPrior 10000 42220 [epForno] probeOkEnv gasFailAll 20000).lastFetchTime
      = 20000 ∧
    (fetchHealth stPrior 10000 42220 [epForno] probeOkEnv gasFailAll 20000).data.isSome
      = true := by
  have h := fetchHealth_overwrite stPrior 10000 42220 [epForno] probeOkEnv gasFailAll 20000
    (by decide) (by decide) (fun e _ => rfl)
  exact ⟨h.1, h.2.1⟩

end ShipCelo
